import Mathlib

/-!
Verification development for the GiveHub Python SDK (givehub-sdk.py).

The file embeds the SDK shallowly in Lean: Python values become an

inductive `PyVal`, Python exceptions become `PyErr`, the mutable
`GiveHubConfig` dataclass becomes an explicit record threaded through the
functions, and the HTTP network is a parameter (`Server`) mapping the
index and content of each issued request to a response or a transport
failure.  Fuel makes the recursive retry logic of `GiveHubSDK.request`
total; exhausting the fuel is reported as `Res.timeout` and models
nonterminating executions.
-/

/-- PyVal models the Python/JSON values the SDK manipulates: `None`,
booleans, integers, strings and string-keyed dictionaries. -/
inductive PyVal where
  | none : PyVal
  | bool (b : Bool) : PyVal
  | int (n : Int) : PyVal
  | str (s : String) : PyVal
  | dict (kvs : List (String × PyVal)) : PyVal

/-- PyErr models the Python exceptions reachable in the SDK code:
`KeyError`, `TypeError`, `AttributeError` and the SDK's own
`GiveHubException` (lines 15-19 of the source) which carries a message
and an optional HTTP status code. -/
inductive PyErr where
  | keyError (k : String) : PyErr
  | typeError : PyErr
  | attributeError : PyErr
  | giveHubException (msg : String) (status : Option Nat) : PyErr

/-- pyTruthy models Python truthiness: `None`, `False`, `0`, the empty
string and the empty dict are falsy, everything else is truthy. -/
def pyTruthy : PyVal → Bool
  | PyVal.none => false
  | PyVal.bool b => b
  | PyVal.int n => n != 0
  | PyVal.str s => s != ""
  | PyVal.dict kvs => !kvs.isEmpty

/-- lookupD is first-match association-list lookup; the model builds every
dictionary with distinct keys, matching Python dict semantics. -/
def lookupD : List (String × PyVal) → String → Option PyVal
  | [], _ => Option.none
  | (k, v) :: rest, key => if k = key then some v else lookupD rest key

mutual
/-- pyStr approximates Python `str()` on the values of the model; it is
only ever applied to strings in the properties below (the `Bearer`
header interpolation at line 63 of the source). -/
def pyStr : PyVal → String
  | PyVal.none => "None"
  | PyVal.bool b => if b then "True" else "False"
  | PyVal.int n => toString n
  | PyVal.str s => s
  | PyVal.dict kvs => "\x7b" ++ pyStrEntries kvs ++ "\x7d"

/-- pyStrEntries renders dictionary entries for `pyStr`. -/
def pyStrEntries : List (String × PyVal) → String
  | [] => ""
  | [(k, v)] => k ++ ": " ++ pyStr v
  | (k, v) :: rest => k ++ ": " ++ pyStr v ++ ", " ++ pyStrEntries rest
end

/-- pyGet models Python `d.get(key)` (default `None`): on a dictionary it
returns the stored value or `None`; on any other value the attribute
access raises `AttributeError`.  Used at lines 96 and 126 of the source. -/
def pyGet : PyVal → String → Except PyErr PyVal
  | PyVal.dict kvs, k =>
      Except.ok (match lookupD kvs k with
        | some v => v
        | Option.none => PyVal.none)
  | _, _ => Except.error PyErr.attributeError

/-- pyIndex models Python `d[key]` subscription: missing key raises
`KeyError(key)`, subscripting a non-dict raises `TypeError`.  Used at
lines 97-98 and 127 of the source. -/
def pyIndex : PyVal → String → Except PyErr PyVal
  | PyVal.dict kvs, k =>
      (match lookupD kvs k with
        | some v => Except.ok v
        | Option.none => Except.error (PyErr.keyError k))
  | _, _ => Except.error PyErr.typeError

/-- GiveHubConfig mirrors the `GiveHubConfig` dataclass (lines 27-33).
Python does not enforce the `Optional[str]` annotations, so the token
and api-key fields hold arbitrary Python values, with `PyVal.none`
standing for Python `None`. -/
structure GiveHubConfig where
  base_url : String
  version : String
  api_key : PyVal
  access_token : PyVal
  refresh_token : PyVal

/-- buildHeaders models lines 57-63 of `GiveHubSDK.request`: the header
dict always carries `Content-Type: application/json` and `X-API-Key`
from the config, and adds `Authorization: Bearer <token>` exactly when
the access token is truthy. -/
def buildHeaders (cfg : GiveHubConfig) : List (String × PyVal) :=
  let hs := [("Content-Type", PyVal.str "application/json"),
             ("X-API-Key", cfg.api_key)]
  if pyTruthy cfg.access_token then
    hs ++ [("Authorization", PyVal.str ("Bearer " ++ pyStr cfg.access_token))]
  else
    hs

/-- mkUrl models line 56: `f"{base_url}/{version}{endpoint}"`. -/
def mkUrl (cfg : GiveHubConfig) (endpoint : String) : String :=
  cfg.base_url ++ "/" ++ cfg.version ++ endpoint

/-- ReqRecord records one HTTP call handed to `session.request`
(lines 66-71): the full URL, the endpoint and method it was built from,
the header dict and the payload. -/
structure ReqRecord where
  url : String
  endpoint : String
  method : String
  headers : List (String × PyVal)
  body : PyVal

/-- mkRecord builds the `ReqRecord` that `request` issues for a given
config, endpoint, method and payload. -/
def mkRecord (cfg : GiveHubConfig) (endpoint method : String) (body : PyVal) :
    ReqRecord :=
  { url := mkUrl cfg endpoint, endpoint := endpoint, method := method,
    headers := buildHeaders cfg, body := body }

/-- HttpResp is a server response: an HTTP status code and the parsed
JSON body. -/
structure HttpResp where
  status : Nat
  body : PyVal

/-- Server is the environment of the transport: given the index of the
call (how many `session.request` calls happened before) and the issued
request, it either responds or fails at the transport layer with a
`requests.exceptions.RequestException` carrying a message and no
response object. -/
abbrev Server : Type := Nat → ReqRecord → Except String HttpResp

/-- SDKState is the mutable state of one `GiveHubSDK` instance: its
config, plus the log of every HTTP call issued so far (the log length
is the call index fed to the `Server`). -/
structure SDKState where
  config : GiveHubConfig
  log : List ReqRecord

/-- Res is the outcome of a modelled SDK call: a returned Python value,
a raised exception, or fuel exhaustion (`timeout` models a
nonterminating execution). -/
inductive Res where
  | ok (v : PyVal) : Res
  | err (e : PyErr) : Res
  | timeout : Res

/-- httpErrorMsg abstracts the human-readable message of the
`requests.HTTPError` raised by `raise_for_status` (line 78), which only
depends on the status code for our purposes. -/
def httpErrorMsg (status : Nat) : String :=
  "HTTP error " ++ toString status

mutual
/-- request models `GiveHubSDK.request` (lines 54-82): build URL and
headers from the current config, issue the call; on a transport failure
rewrap into `GiveHubException(msg, None)`; on a 401 with a truthy
refresh token, run the refresh flow and recursively re-issue the
original request (errors from the refresh flow are not
`RequestException`s, so they propagate uncaught); otherwise a status of
400 or above raises `GiveHubException` with that status, and a success
returns the parsed body. -/
def request (srv : Server) (fuel : Nat) (endpoint method : String)
    (body : PyVal) (st : SDKState) : SDKState × Res :=
  match fuel with
  | 0 => (st, Res.timeout)
  | f + 1 =>
    let req := mkRecord st.config endpoint method body
    let st1 : SDKState := { st with log := st.log ++ [req] }
    match srv st.log.length req with
    | Except.error msg => (st1, Res.err (PyErr.giveHubException msg Option.none))
    | Except.ok resp =>
      if resp.status == 401 && pyTruthy st.config.refresh_token then
        match refresh_access_token srv f st1 with
        | (st2, Res.ok _) => request srv f endpoint method body st2
        | (st2, r) => (st2, r)
      else if 400 ≤ resp.status then
        (st1, Res.err (PyErr.giveHubException (httpErrorMsg resp.status)
          (some resp.status)))
      else
        (st1, Res.ok resp.body)
termination_by structural fuel

/-- refresh_access_token models `AuthModule.refresh_access_token`
(lines 118-129): POST the stored refresh token to `/auth/refresh`; when
the response is flagged successful, store `response["accessToken"]` as
the new access token; return the full response. -/
def refresh_access_token (srv : Server) (fuel : Nat) (st : SDKState) :
    SDKState × Res :=
  match fuel with
  | 0 => (st, Res.timeout)
  | f + 1 =>
    match request srv f "/auth/refresh" "POST"
        (PyVal.dict [("refreshToken", st.config.refresh_token)]) st with
    | (st1, Res.ok body) =>
      (match pyGet body "success" with
        | Except.error e => (st1, Res.err e)
        | Except.ok s =>
          if pyTruthy s then
            match pyIndex body "accessToken" with
            | Except.error e => (st1, Res.err e)
            | Except.ok tok =>
              ({ st1 with config := { st1.config with access_token := tok } },
               Res.ok body)
          else
            (st1, Res.ok body))
    | (st1, r) => (st1, r)
termination_by structural fuel
end

/-- login models `AuthModule.login` (lines 88-100): POST the
credentials; when the response is flagged successful, store
`response["tokens"]["accessToken"]` and then
`response["tokens"]["refreshToken"]` into the config (two separate
statements, in this order, so a `KeyError` on the refresh token leaves
the freshly assigned access token in place); return the full response. -/
def login (srv : Server) (fuel : Nat) (email password : String)
    (st : SDKState) : SDKState × Res :=
  match request srv fuel "/auth/login" "POST"
      (PyVal.dict [("email", PyVal.str email), ("password", PyVal.str password)])
      st with
  | (st1, Res.ok body) =>
    (match pyGet body "success" with
      | Except.error e => (st1, Res.err e)
      | Except.ok s =>
        if pyTruthy s then
          match pyIndex body "tokens" with
          | Except.error e => (st1, Res.err e)
          | Except.ok toks =>
            match pyIndex toks "accessToken" with
            | Except.error e => (st1, Res.err e)
            | Except.ok a =>
              let st2 : SDKState :=
                { st1 with config := { st1.config with access_token := a } }
              match pyIndex body "tokens" with
              | Except.error e => (st2, Res.err e)
              | Except.ok toks2 =>
                match pyIndex toks2 "refreshToken" with
                | Except.error e => (st2, Res.err e)
                | Except.ok r =>
                  ({ st2 with config := { st2.config with refresh_token := r } },
                   Res.ok body)
        else
          (st1, Res.ok body))
  | (st1, r) => (st1, r)

/-- countEndpoint counts how many logged HTTP calls were issued for a
given endpoint. -/
def countEndpoint (log : List ReqRecord) (endpoint : String) : Nat :=
  (log.filter (fun r => r.endpoint = endpoint)).length

/-- Registry models `NotificationModule.listeners` (line 258): a Python
dict from event-type strings to sets of callbacks.  Callbacks are
identified by natural numbers; the value lists are kept duplicate-free,
which is the set invariant. -/
abbrev Registry : Type := List (String × List Nat)

/-- containsKey models the Python `in` test on the listeners dict. -/
def containsKey (reg : Registry) (t : String) : Bool :=
  reg.any (fun p => p.1 == t)

/-- regLookup models subscripting the listeners dict at a key that is
present (first match; keys are unique in a Python dict). -/
def regLookup : Registry → String → Option (List Nat)
  | [], _ => Option.none
  | (k, s) :: rest, t => if k = t then some s else regLookup rest t

/-- setAdd models Python `set.add`: appending the element only when it
is not already a member. -/
def setAdd (s : List Nat) (f : Nat) : List Nat :=
  if f ∈ s then s else s ++ [f]

/-- updateKey rewrites the value stored at a key in place, leaving all
other entries untouched, as Python mutation of `listeners[t]` does. -/
def updateKey (reg : Registry) (t : String) (g : List Nat → List Nat) :
    Registry :=
  reg.map (fun p => if p.1 = t then (p.1, g p.2) else p)

/-- TaskState is the scheduling state of one `_listen` asyncio task:
parked awaiting `recv()` on a given connection, finished normally, or
killed by an uncaught exception. -/
inductive TaskState where
  | parkedRecv (c : Nat) : TaskState
  | done : TaskState
  | dead : TaskState

/-- NotifState is the state of a `NotificationModule` instance
(lines 254-312) together with the parts of the environment its claims
observe: the access token it reads from the shared config, the open or
closed status of each connection ever created (identified by a counter),
the push URL each connection was opened against, every frame sent, the
running `_listen` tasks, and the listener registry. -/
structure NotifState where
  access_token : PyVal
  base_url : String
  websocket : Option Nat
  nextConnId : Nat
  closed : List Nat
  conns : List (Nat × String)
  sentFrames : List (Nat × PyVal)
  tasks : List TaskState
  listeners : Registry

/-- authFrame is the handshake frame of lines 275-278:
`json.dumps({"type": "auth", "token": access_token})`. -/
def authFrame (token : PyVal) : PyVal :=
  PyVal.dict [("type", PyVal.str "auth"), ("token", token)]

/-- wsUrl models line 269: `base_url.replace('http', 'ws')` followed by
appending `/notifications` (line 271); Python `str.replace` replaces
every occurrence, as `String.replace` does. -/
def wsUrl (base : String) : String :=
  (base.replace "http" "ws") ++ "/notifications"

namespace NotificationModule

/-- connect models `NotificationModule.connect` (lines 264-281): when
the shared access token is falsy it raises
`GiveHubException("Authentication required for notifications")` before
touching any state; otherwise it opens a fresh connection to the push
URL, stores the handle, sends the auth handshake frame, and spawns a
`_listen` task parked on the new connection.  The error is returned
alongside the unchanged state, mirroring a raise before any mutation. -/
def connect (st : NotifState) : NotifState × Option PyErr :=
  if !pyTruthy st.access_token then
    (st, some (PyErr.giveHubException
      "Authentication required for notifications" Option.none))
  else
    let c := st.nextConnId
    ({ st with
        websocket := some c,
        nextConnId := c + 1,
        conns := st.conns ++ [(c, wsUrl st.base_url)],
        sentFrames := st.sentFrames ++ [(c, authFrame st.access_token)],
        tasks := st.tasks ++ [TaskState.parkedRecv c] },
     Option.none)

/-- disconnect models `NotificationModule.disconnect` (lines 308-312):
when a handle is present, close that connection and clear the handle;
otherwise do nothing. -/
def disconnect (st : NotifState) : NotifState :=
  match st.websocket with
  | some c => { st with closed := st.closed ++ [c], websocket := Option.none }
  | Option.none => st

/-- onEvent models `NotificationModule.on` (lines 297-301; the Lean
name differs because `on` is reserved): create an empty set for a new
event type, then add the callback to the set for that type. -/
def onEvent (reg : Registry) (t : String) (f : Nat) : Registry :=
  let reg1 := if containsKey reg t then reg else reg ++ [(t, [])]
  updateKey reg1 t (fun s => setAdd s f)

/-- offEvent models `NotificationModule.off` (lines 303-306): when the
event type is registered, discard the callback from its set
(`set.discard` removes a member and ignores a non-member); otherwise do
nothing. -/
def offEvent (reg : Registry) (t : String) (f : Nat) : Registry :=
  if containsKey reg t then updateKey reg t (fun s => s.erase f) else reg

/-- dispatchTargets models the dispatch step of `_listen`
(lines 290-292): when the inbound message type is a registered key, the
loop invokes every callback in its set; otherwise none. -/
def dispatchTargets (reg : Registry) (ntype : String) : List Nat :=
  match regLookup reg ntype with
  | some cbs => cbs
  | Option.none => []

/-- listen_on_closed models one turn of task `i` of `_listen`
(lines 283-295) in which the awaited `recv()` raises
`ConnectionClosed` because the connection the task is parked on has
been closed: the handler re-invokes `connect()`; if `connect` returns,
the task finishes normally (a fresh task is now parked on the new
connection); if `connect` raises, the exception escapes `_listen` and
the task dies. -/
def listen_on_closed (i : Nat) (st : NotifState) : NotifState :=
  match st.tasks.get? i with
  | some (TaskState.parkedRecv c) =>
    if c ∈ st.closed then
      match connect st with
      | (st1, Option.none) => { st1 with tasks := st1.tasks.set i TaskState.done }
      | (st1, some _) => { st1 with tasks := st1.tasks.set i TaskState.dead }
    else st
  | _ => st

/-- listen_on_message models one turn of task `i` of `_listen`
(lines 283-295) in which `recv()` delivers a message on the still-open
connection: the loop reads `notification["type"]` (an uncaught
`KeyError` kills the task), invokes the registered callbacks for that
type, and parks again on the handle currently stored in the module (an
absent handle makes the next `recv()` attribute access fail).  The
invoked callbacks are returned alongside the new state. -/
def listen_on_message (i : Nat) (msg : PyVal) (st : NotifState) :
    NotifState × List Nat :=
  match st.tasks.get? i with
  | some (TaskState.parkedRecv c) =>
    if c ∈ st.closed then (st, []) else
      match pyIndex msg "type" with
      | Except.error _ => ({ st with tasks := st.tasks.set i TaskState.dead }, [])
      | Except.ok t =>
        let fired := match t with
          | PyVal.str s => dispatchTargets st.listeners s
          | _ => []
        match st.websocket with
        | some c2 =>
          ({ st with tasks := st.tasks.set i (TaskState.parkedRecv c2) }, fired)
        | Option.none => ({ st with tasks := st.tasks.set i TaskState.dead }, fired)
  | _ => (st, [])

end NotificationModule

def ConfigFrame (c c2 : GiveHubConfig) : Prop :=
  c2.base_url = c.base_url ∧ c2.version = c.version ∧
  c2.api_key = c.api_key ∧ c2.refresh_token = c.refresh_token

def cfgW : GiveHubConfig :=
  { base_url := "https://api.thegivehub.com", version := "v1",
    api_key := PyVal.str "K", access_token := PyVal.str "A",
    refresh_token := PyVal.none }

def stW : SDKState := { config := cfgW, log := [] }

def srvOk : Server := fun _ _ =>
  Except.ok { status := 200, body := PyVal.dict [("ok", PyVal.bool true)] }

def cfgW2 : GiveHubConfig :=
  { base_url := "https://api.thegivehub.com", version := "v1",
    api_key := PyVal.str "K", access_token := PyVal.none,
    refresh_token := PyVal.none }

def stW2 : SDKState := { config := cfgW2, log := [] }

def cfgR : GiveHubConfig :=
  { base_url := "https://api.thegivehub.com", version := "v1",
    api_key := PyVal.str "K", access_token := PyVal.str "old",
    refresh_token := PyVal.str "R" }

def stR : SDKState := { config := cfgR, log := [] }

def srvRefreshOk : Server := fun _ _ =>
  Except.ok { status := 200,
              body := PyVal.dict [("success", PyVal.bool true),
                                  ("accessToken", PyVal.str "A2")] }

def srv400 : Server := fun _ _ =>
  Except.ok { status := 400, body := PyVal.none }

def bodyRefreshFail : PyVal := PyVal.dict [("success", PyVal.bool false)]

def srvRefreshFail : Server := fun _ _ =>
  Except.ok { status := 200, body := bodyRefreshFail }

def cfgC1 : GiveHubConfig :=
  { base_url := "https://api.thegivehub.com", version := "v1",
    api_key := PyVal.str "K", access_token := PyVal.str "A1",
    refresh_token := PyVal.str "R" }

def stC1 : SDKState := { config := cfgC1, log := [] }

def srvC1 : Server := fun _ req =>
  if req.endpoint = "/auth/refresh" then
    Except.ok { status := 200,
                body := PyVal.dict [("success", PyVal.bool true),
                                    ("accessToken", PyVal.str "A2")] }
  else
    Except.ok { status := 401, body := PyVal.none }

def srvB : Server := fun i _ =>
  if i = 0 then Except.ok { status := 401, body := PyVal.none }
  else Except.error "boom"

def bodyLoginOk : PyVal :=
  PyVal.dict [("success", PyVal.bool true),
              ("tokens", PyVal.dict [("accessToken", PyVal.str "A"),
                                     ("refreshToken", PyVal.str "R")])]

def srvLoginOk : Server := fun _ _ =>
  Except.ok { status := 200, body := bodyLoginOk }

def bodyLoginFail : PyVal := PyVal.dict [("success", PyVal.bool false)]

def srvLoginFail : Server := fun _ _ =>
  Except.ok { status := 200, body := bodyLoginFail }

def cfgC10 : GiveHubConfig :=
  { base_url := "https://api.thegivehub.com", version := "v1",
    api_key := PyVal.str "K", access_token := PyVal.str "old",
    refresh_token := PyVal.str "R0" }

def stC10 : SDKState := { config := cfgC10, log := [] }

def bodyC10 : PyVal :=
  PyVal.dict [("success", PyVal.bool true),
              ("tokens", PyVal.dict [("accessToken", PyVal.str "A")])]

def srvC10 : Server := fun _ _ =>
  Except.ok { status := 200, body := bodyC10 }

def stN0 : NotifState :=
  { access_token := PyVal.none, base_url := "https://api.thegivehub.com",
    websocket := Option.none, nextConnId := 0, closed := [], conns := [],
    sentFrames := [], tasks := [], listeners := [] }

def stN1 : NotifState :=
  { access_token := PyVal.str "T", base_url := "https://api.thegivehub.com",
    websocket := Option.none, nextConnId := 0, closed := [], conns := [],
    sentFrames := [], tasks := [], listeners := [] }

def RegWF (reg : Registry) : Prop :=
  (reg.map Prod.fst).Nodup ∧ ∀ p ∈ reg, p.2.Nodup

theorem ConfigFrame.refl (c : GiveHubConfig) : ConfigFrame c c :=
  ⟨rfl, rfl, rfl, rfl⟩

theorem ConfigFrame.trans {a b c : GiveHubConfig} (h1 : ConfigFrame a b)
    (h2 : ConfigFrame b c) : ConfigFrame a c := by
  obtain ⟨x1, x2, x3, x4⟩ := h1
  obtain ⟨y1, y2, y3, y4⟩ := h2
  exact ⟨y1.trans x1, y2.trans x2, y3.trans x3, y4.trans x4⟩

theorem sdk_config_frame (srv : Server) (f : Nat) :
    (∀ e m b st, ConfigFrame st.config (request srv f e m b st).1.config) ∧
    (∀ st, ConfigFrame st.config (refresh_access_token srv f st).1.config) := by
  induction f with
  | zero =>
    constructor <;> intros <;> simp [request, refresh_access_token, ConfigFrame.refl]
  | succ f ih =>
    obtain ⟨ihreq, ihref⟩ := ih
    constructor
    · intro e m b st
      simp only [request]
      split
      · exact ConfigFrame.refl _
      · split
        · rcases href : refresh_access_token srv f
              { st with log := st.log ++ [mkRecord st.config e m b] } with ⟨st2, r⟩
          have hbase := ihref { st with log := st.log ++ [mkRecord st.config e m b] }
          rw [href] at hbase
          cases r with
          | ok v =>
            simp only [href]
            exact ConfigFrame.trans hbase (ihreq e m b st2)
          | err e2 => simp only [href]; exact hbase
          | timeout => simp only [href]; exact hbase
        · split
          · exact ConfigFrame.refl _
          · exact ConfigFrame.refl _
    · intro st
      simp only [refresh_access_token]
      rcases hreq : request srv f "/auth/refresh" "POST"
          (PyVal.dict [("refreshToken", st.config.refresh_token)]) st with ⟨st1, r⟩
      have hbase := ihreq "/auth/refresh" "POST"
          (PyVal.dict [("refreshToken", st.config.refresh_token)]) st
      rw [hreq] at hbase
      cases r with
      | ok body =>
        simp only [hreq]
        split
        · exact hbase
        · split
          · split
            · exact hbase
            · refine ConfigFrame.trans hbase ⟨rfl, rfl, rfl, rfl⟩
          · exact hbase
      | err e2 => simp only [hreq]; exact hbase
      | timeout => simp only [hreq]; exact hbase

theorem sdk_log_spec (srv : Server) (f : Nat) :
    (∀ e m b st, ∃ rest, (request srv f e m b st).1.log = st.log ++ rest ∧
        ∀ r ∈ rest, r.endpoint = e ∨ r.endpoint = "/auth/refresh") ∧
    (∀ st, ∃ rest, (refresh_access_token srv f st).1.log = st.log ++ rest ∧
        ∀ r ∈ rest, r.endpoint = "/auth/refresh") := by
  induction f with
  | zero =>
    constructor <;> intros <;> exact ⟨[], by simp [request, refresh_access_token]⟩
  | succ f ih =>
    obtain ⟨ihreq, ihref⟩ := ih
    constructor
    · intro e m b st
      simp only [request]
      split
      · refine ⟨[mkRecord st.config e m b], by simp, ?_⟩
        intro r hr
        simp at hr
        subst hr
        left
        rfl
      · split
        · rcases href : refresh_access_token srv f
              { st with log := st.log ++ [mkRecord st.config e m b] } with ⟨st2, r⟩
          obtain ⟨rest1, hlog1, hend1⟩ := ihref
              { st with log := st.log ++ [mkRecord st.config e m b] }
          rw [href] at hlog1
          cases r with
          | ok v =>
            simp only [href]
            obtain ⟨rest2, hlog2, hend2⟩ := ihreq e m b st2
            refine ⟨mkRecord st.config e m b :: (rest1 ++ rest2), ?_, ?_⟩
            · show (request srv f e m b st2).1.log = _
              have h1 : st2.log = (st.log ++ [mkRecord st.config e m b]) ++ rest1 :=
                hlog1
              rw [hlog2, h1]
              simp
            · intro r hr
              rcases List.mem_cons.mp hr with h | h
              · subst h; left; rfl
              · rcases List.mem_append.mp h with h2 | h2
                · right; exact hend1 r h2
                · exact hend2 r h2
          | err e2 =>
            simp only [href]
            refine ⟨mkRecord st.config e m b :: rest1, ?_, ?_⟩
            · show st2.log = _
              have h1 : st2.log = (st.log ++ [mkRecord st.config e m b]) ++ rest1 :=
                hlog1
              rw [h1]
              simp
            · intro r hr
              rcases List.mem_cons.mp hr with h | h
              · subst h; left; rfl
              · right; exact hend1 r h
          | timeout =>
            simp only [href]
            refine ⟨mkRecord st.config e m b :: rest1, ?_, ?_⟩
            · show st2.log = _
              have h1 : st2.log = (st.log ++ [mkRecord st.config e m b]) ++ rest1 :=
                hlog1
              rw [h1]
              simp
            · intro r hr
              rcases List.mem_cons.mp hr with h | h
              · subst h; left; rfl
              · right; exact hend1 r h
        · split
          · refine ⟨[mkRecord st.config e m b], by simp, ?_⟩
            intro r hr; simp at hr; subst hr; left; rfl
          · refine ⟨[mkRecord st.config e m b], by simp, ?_⟩
            intro r hr; simp at hr; subst hr; left; rfl
    · intro st
      simp only [refresh_access_token]
      rcases hreq : request srv f "/auth/refresh" "POST"
          (PyVal.dict [("refreshToken", st.config.refresh_token)]) st with ⟨st1, r⟩
      obtain ⟨rest, hlog, hend⟩ := ihreq "/auth/refresh" "POST"
          (PyVal.dict [("refreshToken", st.config.refresh_token)]) st
      rw [hreq] at hlog
      have hend2 : ∀ r2 ∈ rest, r2.endpoint = "/auth/refresh" := by
        intro r2 hr2
        rcases hend r2 hr2 with h | h <;> exact h
      cases r with
      | ok body =>
        simp only [hreq]
        split
        · exact ⟨rest, hlog, hend2⟩
        · split
          · split
            · exact ⟨rest, hlog, hend2⟩
            · exact ⟨rest, hlog, hend2⟩
          · exact ⟨rest, hlog, hend2⟩
      | err e2 => simp only [hreq]; exact ⟨rest, hlog, hend2⟩
      | timeout => simp only [hreq]; exact ⟨rest, hlog, hend2⟩

theorem countEndpoint_append (l1 l2 : List ReqRecord) (e : String) :
    countEndpoint (l1 ++ l2) e = countEndpoint l1 e + countEndpoint l2 e := by
  simp [countEndpoint, List.filter_append]

theorem countEndpoint_singleton (r : ReqRecord) (e : String)
    (h : r.endpoint = e) : countEndpoint [r] e = 1 := by
  simp [countEndpoint, h]

theorem countEndpoint_nil_of_ne (l : List ReqRecord) (e : String)
    (h : ∀ r ∈ l, r.endpoint ≠ e) : countEndpoint l e = 0 := by
  simp only [countEndpoint, List.length_eq_zero]
  rw [List.filter_eq_nil_iff]
  intro r hr
  simpa using h r hr

theorem request_succ_log (srv : Server) (f : Nat) (e m : String) (b : PyVal)
    (st : SDKState) :
    ∃ rest, (request srv (f + 1) e m b st).1.log =
      st.log ++ mkRecord st.config e m b :: rest := by
  simp only [request]
  split
  · exact ⟨[], by simp⟩
  · split
    · rcases href : refresh_access_token srv f
          { st with log := st.log ++ [mkRecord st.config e m b] } with ⟨st2, r⟩
      obtain ⟨rest1, hlog1, _⟩ := (sdk_log_spec srv f).2
          { st with log := st.log ++ [mkRecord st.config e m b] }
      rw [href] at hlog1
      have h1 : st2.log = (st.log ++ [mkRecord st.config e m b]) ++ rest1 := hlog1
      cases r with
      | ok v =>
        simp only [href]
        obtain ⟨rest2, hlog2, _⟩ := (sdk_log_spec srv f).1 e m b st2
        refine ⟨rest1 ++ rest2, ?_⟩
        show (request srv f e m b st2).1.log = _
        rw [hlog2, h1]
        simp
      | err e2 =>
        simp only [href]
        refine ⟨rest1, ?_⟩
        show st2.log = _
        rw [h1]
        simp
      | timeout =>
        simp only [href]
        refine ⟨rest1, ?_⟩
        show st2.log = _
        rw [h1]
        simp
    · split
      · exact ⟨[], by simp⟩
      · exact ⟨[], by simp⟩

/-- C7: every transport request sets `Content-Type: application/json`
and `X-API-Key` from Config unconditionally, and carries an
`Authorization` header exactly when Config holds a (truthy) access
token at call time, in which case its value is `Bearer ` followed by
that token; the issued request record uses exactly these headers built
from the config at call time. -/
theorem claim_C7 (srv : Server) (f : Nat) (e m : String) (b : PyVal)
    (st : SDKState) :
    (∃ rest, (request srv (f + 1) e m b st).1.log =
        st.log ++ { url := mkUrl st.config e, endpoint := e, method := m,
                    headers := buildHeaders st.config, body := b } :: rest) ∧
    lookupD (buildHeaders st.config) "Content-Type" =
      some (PyVal.str "application/json") ∧
    lookupD (buildHeaders st.config) "X-API-Key" = some st.config.api_key ∧
    (pyTruthy st.config.access_token = true →
      lookupD (buildHeaders st.config) "Authorization" =
        some (PyVal.str ("Bearer " ++ pyStr st.config.access_token))) ∧
    (pyTruthy st.config.access_token = false →
      lookupD (buildHeaders st.config) "Authorization" = Option.none) := by
  refine ⟨request_succ_log srv f e m b st, ?_, ?_, ?_, ?_⟩
  · by_cases h : pyTruthy st.config.access_token <;> simp [buildHeaders, lookupD, h]
  · by_cases h : pyTruthy st.config.access_token <;> simp [buildHeaders, lookupD, h]
  · intro h
    simp [buildHeaders, lookupD, h]
  · intro h
    simp [buildHeaders, lookupD, h]

theorem claim_C7_witness :
    (lookupD (buildHeaders stW.config) "Authorization" =
      some (PyVal.str ("Bearer " ++ pyStr stW.config.access_token))) ∧
    (lookupD (buildHeaders stW2.config) "Authorization" = Option.none) ∧
    lookupD (buildHeaders stW2.config) "Content-Type" =
      some (PyVal.str "application/json") :=
  ⟨(claim_C7 srvOk 0 "/campaigns" "GET" PyVal.none stW).2.2.2.1 rfl,
   (claim_C7 srvOk 0 "/campaigns" "GET" PyVal.none stW2).2.2.2.2 rfl,
   (claim_C7 srvOk 0 "/campaigns" "GET" PyVal.none stW2).2.1⟩

/-- C8: a successful `refreshAccessToken()` updates at most the access
token in Config: the refresh token, base URL, version and API key all
hold the same values after the call as before it. -/
theorem claim_C8 (srv : Server) (f : Nat) (st st2 : SDKState) (body : PyVal)
    (hrun : refresh_access_token srv f st = (st2, Res.ok body)) :
    st2.config.refresh_token = st.config.refresh_token ∧
    st2.config.base_url = st.config.base_url ∧
    st2.config.version = st.config.version ∧
    st2.config.api_key = st.config.api_key := by
  have h := (sdk_config_frame srv f).2 st
  rw [hrun] at h
  obtain ⟨h1, h2, h3, h4⟩ := h
  exact ⟨h4, h1, h2, h3⟩

theorem claim_C8_witness :
    (refresh_access_token srvRefreshOk 2 stR).1.config.refresh_token =
      stR.config.refresh_token ∧
    (refresh_access_token srvRefreshOk 2 stR).1.config.base_url =
      stR.config.base_url ∧
    (refresh_access_token srvRefreshOk 2 stR).1.config.version =
      stR.config.version ∧
    (refresh_access_token srvRefreshOk 2 stR).1.config.api_key =
      stR.config.api_key :=
  claim_C8 srvRefreshOk 2 stR (refresh_access_token srvRefreshOk 2 stR).1
    (PyVal.dict [("success", PyVal.bool true), ("accessToken", PyVal.str "A2")])
    rfl

/-- C3 as amended: a `refreshAccessToken()` whose HTTP POST comes back
with a non-401 error status surfaces the transport error to the caller
and leaves Config entirely unchanged — the stale access token is NOT
cleared, so a failed refresh does not produce the access-token-cleared
Unauthenticated state.  The access token is installed only from a
response flagged successful: a refresh or login whose direct response
is not flagged successful returns the body with Config unchanged.
(The original clause that the token is set only by a SUCCESSFUL login
or refresh is refuted separately, see the counterexample: a
success-flagged login response installs the access token even when the
login call then dies with a `KeyError`.) -/
theorem claim_C3 (srv : Server) (f : Nat) (st : SDKState) :
    (∀ resp : HttpResp,
      srv st.log.length
          (mkRecord st.config "/auth/refresh" "POST"
            (PyVal.dict [("refreshToken", st.config.refresh_token)])) =
        Except.ok resp →
      400 ≤ resp.status → resp.status ≠ 401 →
      refresh_access_token srv (f + 2) st =
        ({ st with log := st.log ++
            [mkRecord st.config "/auth/refresh" "POST"
              (PyVal.dict [("refreshToken", st.config.refresh_token)])] },
         Res.err (PyErr.giveHubException (httpErrorMsg resp.status)
           (some resp.status)))) ∧
    (∀ body s : PyVal,
      srv st.log.length
          (mkRecord st.config "/auth/refresh" "POST"
            (PyVal.dict [("refreshToken", st.config.refresh_token)])) =
        Except.ok { status := 200, body := body } →
      pyGet body "success" = Except.ok s → pyTruthy s = false →
      refresh_access_token srv (f + 2) st =
        ({ st with log := st.log ++
            [mkRecord st.config "/auth/refresh" "POST"
              (PyVal.dict [("refreshToken", st.config.refresh_token)])] },
         Res.ok body)) ∧
    (∀ (email password : String) (body s : PyVal),
      srv st.log.length
          (mkRecord st.config "/auth/login" "POST"
            (PyVal.dict [("email", PyVal.str email),
                         ("password", PyVal.str password)])) =
        Except.ok { status := 200, body := body } →
      pyGet body "success" = Except.ok s → pyTruthy s = false →
      login srv (f + 1) email password st =
        ({ st with log := st.log ++
            [mkRecord st.config "/auth/login" "POST"
              (PyVal.dict [("email", PyVal.str email),
                           ("password", PyVal.str password)])] },
         Res.ok body)) := by
  refine ⟨?_, ?_, ?_⟩
  · intro resp hsrv h4 hn
    simp only [refresh_access_token, request, hsrv]
    have hb : (resp.status == 401) = false := by
      simp [hn]
    simp [hb, h4]
  · intro body s hsrv hs htr
    simp [refresh_access_token, request, hsrv, hs, htr]
  · intro email password body s hsrv hs htr
    simp [login, request, hsrv, hs, htr]

theorem claim_C3_witness :
    refresh_access_token srv400 2 stR =
      ({ stR with log := stR.log ++
          [mkRecord stR.config "/auth/refresh" "POST"
            (PyVal.dict [("refreshToken", stR.config.refresh_token)])] },
       Res.err (PyErr.giveHubException (httpErrorMsg 400) (some 400))) ∧
    refresh_access_token srvRefreshFail 2 stR =
      ({ stR with log := stR.log ++
          [mkRecord stR.config "/auth/refresh" "POST"
            (PyVal.dict [("refreshToken", stR.config.refresh_token)])] },
       Res.ok bodyRefreshFail) ∧
    login srvRefreshFail 1 "a@b.c" "pw" stR =
      ({ stR with log := stR.log ++
          [mkRecord stR.config "/auth/login" "POST"
            (PyVal.dict [("email", PyVal.str "a@b.c"),
                         ("password", PyVal.str "pw")])] },
       Res.ok bodyRefreshFail) :=
  ⟨(claim_C3 srv400 0 stR).1 { status := 400, body := PyVal.none } rfl
      (by decide) (by decide),
   (claim_C3 srvRefreshFail 0 stR).2.1 bodyRefreshFail (PyVal.bool false)
      rfl rfl rfl,
   (claim_C3 srvRefreshFail 0 stR).2.2 "a@b.c" "pw" bodyRefreshFail
      (PyVal.bool false) rfl rfl rfl⟩

theorem claim_C3_counterexample :
    (refresh_access_token srv400 2 stR).2 =
      Res.err (PyErr.giveHubException (httpErrorMsg 400) (some 400)) ∧
    (refresh_access_token srv400 2 stR).1.config.access_token =
      PyVal.str "old" ∧
    PyVal.str "old" ≠ PyVal.none ∧
    (login srvC10 1 "u" "p" stC10).2 =
      Res.err (PyErr.keyError "refreshToken") ∧
    (login srvC10 1 "u" "p" stC10).1.config.access_token = PyVal.str "A" ∧
    stC10.config.access_token = PyVal.str "old" ∧
    PyVal.str "A" ≠ PyVal.str "old" :=
  ⟨rfl, rfl, fun h => PyVal.noConfusion h, rfl, rfl, rfl, by
    intro h
    injection h with h2
    exact absurd h2 (by decide)⟩

/-- C1 as amended: on an HTTP 401 with a truthy refresh token the
transport triggers the refresh flow; if the refresh flow raises, that
error is propagated unchanged and the original request is not re-issued
(its endpoint has been issued exactly once more than before the call);
if the refresh flow returns, the transport re-issues the original
request as a full recursive call whose first issued record carries
headers rebuilt from the updated Config — so a retry that again
receives a 401 refreshes and retries again, with no bound beyond the
fuel. -/
theorem claim_C1 (srv : Server) (f : Nat) (e m : String) (b : PyVal)
    (st : SDKState) (resp : HttpResp)
    (hsrv : srv st.log.length (mkRecord st.config e m b) = Except.ok resp)
    (h401 : resp.status = 401)
    (hrt : pyTruthy st.config.refresh_token = true)
    (hne : e ≠ "/auth/refresh") :
    (∀ st2 er,
      refresh_access_token srv f
          { st with log := st.log ++ [mkRecord st.config e m b] } =
        (st2, Res.err er) →
      request srv (f + 1) e m b st = (st2, Res.err er) ∧
      countEndpoint st2.log e = countEndpoint st.log e + 1) ∧
    (∀ st2 body2,
      refresh_access_token srv f
          { st with log := st.log ++ [mkRecord st.config e m b] } =
        (st2, Res.ok body2) →
      request srv (f + 1) e m b st = request srv f e m b st2 ∧
      ∀ f2, f = f2 + 1 →
        ∃ rest, (request srv f e m b st2).1.log =
          st2.log ++ mkRecord st2.config e m b :: rest) := by
  have hb : (resp.status == 401) = true := by simp [h401]
  constructor
  · intro st2 er href
    constructor
    · simp only [request, hsrv, hb, hrt, Bool.and_self, if_true, href]
    · obtain ⟨rest1, hlog1, hend1⟩ := (sdk_log_spec srv f).2
          { st with log := st.log ++ [mkRecord st.config e m b] }
      rw [href] at hlog1
      have h1 : st2.log = (st.log ++ [mkRecord st.config e m b]) ++ rest1 :=
        hlog1
      rw [h1, countEndpoint_append, countEndpoint_append,
        countEndpoint_singleton (mkRecord st.config e m b) e rfl,
        countEndpoint_nil_of_ne rest1 e
          (fun r hr => by rw [hend1 r hr]; exact fun hc => hne hc.symm)]
  · intro st2 body2 href
    constructor
    · simp only [request, hsrv, hb, hrt, Bool.and_self, if_true, href]
    · intro f2 hf2
      subst hf2
      exact request_succ_log srv f2 e m b st2

theorem claim_C1_counterexample :
    (request srvC1 4 "/data" "GET" PyVal.none stC1).2 = Res.timeout ∧
    countEndpoint (request srvC1 4 "/data" "GET" PyVal.none stC1).1.log
      "/data" = 3 ∧
    (3 : Nat) ≠ 2 :=
  ⟨rfl, rfl, by decide⟩

theorem claim_C1_witness :
    request srvB 3 "/data" "GET" PyVal.none stC1 =
      ((refresh_access_token srvB 2
          { stC1 with log := stC1.log ++
            [mkRecord stC1.config "/data" "GET" PyVal.none] }).1,
       Res.err (PyErr.giveHubException "boom" Option.none)) ∧
    countEndpoint (refresh_access_token srvB 2
        { stC1 with log := stC1.log ++
          [mkRecord stC1.config "/data" "GET" PyVal.none] }).1.log "/data" =
      countEndpoint stC1.log "/data" + 1 := by
  have h := claim_C1 srvB 2 "/data" "GET" PyVal.none stC1
      { status := 401, body := PyVal.none } rfl rfl rfl (by decide)
  exact h.1 _ _ rfl

/-- C4: when the login POST comes back 200 with a body flagged
successful that carries string tokens, Config afterwards holds exactly
those tokens; when the body is flagged unsuccessful, both token fields
(indeed all of Config) are unchanged; in both cases login returns the
full response body. -/
theorem claim_C4 (srv : Server) (f : Nat) (email password : String)
    (st : SDKState) (body s : PyVal)
    (hsrv : srv st.log.length
        (mkRecord st.config "/auth/login" "POST"
          (PyVal.dict [("email", PyVal.str email),
                       ("password", PyVal.str password)])) =
      Except.ok { status := 200, body := body })
    (hs : pyGet body "success" = Except.ok s) :
    (∀ (toks : PyVal) (a r : String), pyTruthy s = true →
      pyIndex body "tokens" = Except.ok toks →
      pyIndex toks "accessToken" = Except.ok (PyVal.str a) →
      pyIndex toks "refreshToken" = Except.ok (PyVal.str r) →
      login srv (f + 1) email password st =
        ({ config := { st.config with
                        access_token := PyVal.str a,
                        refresh_token := PyVal.str r },
           log := st.log ++
             [mkRecord st.config "/auth/login" "POST"
               (PyVal.dict [("email", PyVal.str email),
                            ("password", PyVal.str password)])] },
         Res.ok body)) ∧
    (pyTruthy s = false →
      login srv (f + 1) email password st =
        ({ config := st.config,
           log := st.log ++
             [mkRecord st.config "/auth/login" "POST"
               (PyVal.dict [("email", PyVal.str email),
                            ("password", PyVal.str password)])] },
         Res.ok body)) := by
  constructor
  · intro toks a r htr htoks ha hr2
    simp [login, request, hsrv, hs, htr, htoks, ha, hr2]
  · intro htr
    simp [login, request, hsrv, hs, htr]

theorem claim_C4_witness :
    login srvLoginOk 1 "user@x.com" "pw" stW2 =
      ({ config := { stW2.config with
                      access_token := PyVal.str "A",
                      refresh_token := PyVal.str "R" },
         log := stW2.log ++
           [mkRecord stW2.config "/auth/login" "POST"
             (PyVal.dict [("email", PyVal.str "user@x.com"),
                          ("password", PyVal.str "pw")])] },
       Res.ok bodyLoginOk) ∧
    login srvLoginFail 1 "user@x.com" "pw" stW2 =
      ({ config := stW2.config,
         log := stW2.log ++
           [mkRecord stW2.config "/auth/login" "POST"
             (PyVal.dict [("email", PyVal.str "user@x.com"),
                          ("password", PyVal.str "pw")])] },
       Res.ok bodyLoginFail) :=
  ⟨(claim_C4 srvLoginOk 0 "user@x.com" "pw" stW2 bodyLoginOk (PyVal.bool true)
      rfl rfl).1
      (PyVal.dict [("accessToken", PyVal.str "A"),
                   ("refreshToken", PyVal.str "R")]) "A" "R" rfl rfl rfl rfl,
   (claim_C4 srvLoginFail 0 "user@x.com" "pw" stW2 bodyLoginFail
      (PyVal.bool false) rfl rfl).2 rfl⟩

/-- C10 as amended: when a login response is flagged successful but a
token field is missing, login raises the plain `KeyError` coming out of
the dict subscription (never a `GiveHubException`); Config is left
unchanged when `tokens` or `accessToken` is the missing key, but when
only `refreshToken` is missing the access token has already been
overwritten by line 97, so only the refresh token is left unchanged. -/
theorem claim_C10 (srv : Server) (f : Nat) (email password : String)
    (st : SDKState) (body s : PyVal)
    (hsrv : srv st.log.length
        (mkRecord st.config "/auth/login" "POST"
          (PyVal.dict [("email", PyVal.str email),
                       ("password", PyVal.str password)])) =
      Except.ok { status := 200, body := body })
    (hs : pyGet body "success" = Except.ok s)
    (htr : pyTruthy s = true) :
    (∀ er, pyIndex body "tokens" = Except.error er →
      login srv (f + 1) email password st =
        ({ config := st.config,
           log := st.log ++
             [mkRecord st.config "/auth/login" "POST"
               (PyVal.dict [("email", PyVal.str email),
                            ("password", PyVal.str password)])] },
         Res.err er)) ∧
    (∀ toks er, pyIndex body "tokens" = Except.ok toks →
      pyIndex toks "accessToken" = Except.error er →
      login srv (f + 1) email password st =
        ({ config := st.config,
           log := st.log ++
             [mkRecord st.config "/auth/login" "POST"
               (PyVal.dict [("email", PyVal.str email),
                            ("password", PyVal.str password)])] },
         Res.err er)) ∧
    (∀ toks a er, pyIndex body "tokens" = Except.ok toks →
      pyIndex toks "accessToken" = Except.ok a →
      pyIndex toks "refreshToken" = Except.error er →
      login srv (f + 1) email password st =
        ({ config := { st.config with access_token := a },
           log := st.log ++
             [mkRecord st.config "/auth/login" "POST"
               (PyVal.dict [("email", PyVal.str email),
                            ("password", PyVal.str password)])] },
         Res.err er)) := by
  refine ⟨?_, ?_, ?_⟩
  · intro er htoks
    simp [login, request, hsrv, hs, htr, htoks]
  · intro toks er htoks ha
    simp [login, request, hsrv, hs, htr, htoks, ha]
  · intro toks a er htoks ha hr2
    simp [login, request, hsrv, hs, htr, htoks, ha, hr2]

theorem claim_C10_counterexample :
    (login srvC10 1 "u" "p" stC10).2 = Res.err (PyErr.keyError "refreshToken") ∧
    (login srvC10 1 "u" "p" stC10).1.config.access_token = PyVal.str "A" ∧
    stC10.config.access_token = PyVal.str "old" ∧
    PyVal.str "A" ≠ PyVal.str "old" :=
  ⟨rfl, rfl, rfl, by
    intro h
    injection h with h2
    exact absurd h2 (by decide)⟩

theorem claim_C10_witness :
    login srvC10 1 "u" "p" stC10 =
      ({ config := { stC10.config with access_token := PyVal.str "A" },
         log := stC10.log ++
           [mkRecord stC10.config "/auth/login" "POST"
             (PyVal.dict [("email", PyVal.str "u"),
                          ("password", PyVal.str "p")])] },
       Res.err (PyErr.keyError "refreshToken")) :=
  (claim_C10 srvC10 0 "u" "p" stC10 bodyC10 (PyVal.bool true) rfl rfl
      rfl).2.2
    (PyVal.dict [("accessToken", PyVal.str "A")]) (PyVal.str "A")
    (PyErr.keyError "refreshToken") rfl rfl rfl

/-- C6: connect() with a falsy access token raises
`GiveHubException("Authentication required for notifications")` and
performs no state change at all: the connection handle, the set of
connections and the sent frames are exactly as before. -/
theorem claim_C6 (st : NotifState) (h : pyTruthy st.access_token = false) :
    NotificationModule.connect st =
      (st, some (PyErr.giveHubException
        "Authentication required for notifications" Option.none)) := by
  simp [NotificationModule.connect, h]

theorem claim_C6_witness :
    NotificationModule.connect stN0 =
      (stN0, some (PyErr.giveHubException
        "Authentication required for notifications" Option.none)) :=
  claim_C6 stN0 rfl

/-- C9: disconnect() is safe and idempotent: with no open handle it is a
no-op that raises nothing, a first disconnect clears the handle, and a
second disconnect leaves the state exactly as after the first. -/
theorem claim_C9 (st : NotifState) :
    (st.websocket = Option.none → NotificationModule.disconnect st = st) ∧
    (NotificationModule.disconnect st).websocket = Option.none ∧
    NotificationModule.disconnect (NotificationModule.disconnect st) =
      NotificationModule.disconnect st := by
  refine ⟨?_, ?_, ?_⟩
  · intro h
    simp [NotificationModule.disconnect, h]
  · cases h : st.websocket <;> simp [NotificationModule.disconnect, h]
  · cases h : st.websocket <;> simp [NotificationModule.disconnect, h]

theorem claim_C9_witness :
    NotificationModule.disconnect stN0 = stN0 ∧
    NotificationModule.disconnect (NotificationModule.disconnect stN0) =
      NotificationModule.disconnect stN0 :=
  ⟨(claim_C9 stN0).1 rfl, (claim_C9 stN0).2.2⟩

/-- C2: the claim fails on the code.  Starting from a connected channel
(one `_listen` task parked on connection 0, one handshake frame sent),
an explicit `disconnect()` closes connection 0 and clears the handle;
the parked `recv()` then raises `ConnectionClosed`, and the receive
loop's handler re-invokes `connect()`, sending a SECOND handshake frame
and reopening the channel on connection 1 — so a `disconnect()` call
does lead to a fresh handshake. -/
theorem claim_C2 :
    ((NotificationModule.connect stN1).1.sentFrames =
      [(0, authFrame (PyVal.str "T"))]) ∧
    (NotificationModule.disconnect (NotificationModule.connect stN1).1).websocket
      = Option.none ∧
    (NotificationModule.disconnect
        (NotificationModule.connect stN1).1).sentFrames =
      [(0, authFrame (PyVal.str "T"))] ∧
    (NotificationModule.listen_on_closed 0
        (NotificationModule.disconnect
          (NotificationModule.connect stN1).1)).sentFrames =
      [(0, authFrame (PyVal.str "T")), (1, authFrame (PyVal.str "T"))] ∧
    (NotificationModule.listen_on_closed 0
        (NotificationModule.disconnect
          (NotificationModule.connect stN1).1)).websocket = some 1 :=
  ⟨rfl, rfl, rfl, rfl, rfl⟩

theorem regLookup_none_of_not_containsKey (reg : Registry) (t : String)
    (h : containsKey reg t = false) : regLookup reg t = Option.none := by
  induction reg with
  | nil => rfl
  | cons p rest ih =>
    simp only [containsKey, List.any_cons, Bool.or_eq_false_iff] at h
    obtain ⟨h1, h2⟩ := h
    obtain ⟨k, v⟩ := p
    simp only [regLookup]
    rw [if_neg (by simpa using h1)]
    exact ih h2

theorem regLookup_some_of_containsKey (reg : Registry) (t : String)
    (h : containsKey reg t = true) : ∃ s, regLookup reg t = some s := by
  induction reg with
  | nil => simp [containsKey] at h
  | cons p rest ih =>
    obtain ⟨k, v⟩ := p
    by_cases hk : k = t
    · exact ⟨v, by simp [regLookup, hk]⟩
    · simp only [containsKey, List.any_cons, Bool.or_eq_true] at h
      rcases h with h1 | h2
      · exact absurd (by simpa using h1) hk
      · obtain ⟨s, hs⟩ := ih h2
        exact ⟨s, by simp [regLookup, hk, hs]⟩

theorem updateKey_cons (q : String × List Nat) (l : Registry) (t : String)
    (g : List Nat → List Nat) :
    updateKey (q :: l) t g =
      (if q.1 = t then (q.1, g q.2) else q) :: updateKey l t g := rfl

theorem regLookup_updateKey (reg : Registry) (t : String)
    (g : List Nat → List Nat) :
    regLookup (updateKey reg t g) t = (regLookup reg t).map g := by
  induction reg with
  | nil => rfl
  | cons p rest ih =>
    obtain ⟨k, v⟩ := p
    rw [updateKey_cons]
    by_cases hk : k = t
    · subst hk
      rw [if_pos (show ((k : String), v).1 = k from rfl)]
      simp [regLookup]
    · rw [if_neg hk]
      simp only [regLookup]
      rw [if_neg hk, if_neg hk]
      exact ih

theorem updateKey_map_fst (reg : Registry) (t : String)
    (g : List Nat → List Nat) :
    (updateKey reg t g).map Prod.fst = reg.map Prod.fst := by
  simp only [updateKey, List.map_map]
  apply List.map_congr_left
  intro p _
  by_cases hp : p.1 = t <;> simp [hp]

theorem containsKey_eq_any_fst (reg : Registry) (t : String) :
    containsKey reg t = (reg.map Prod.fst).any (fun k => k == t) := by
  induction reg with
  | nil => rfl
  | cons p rest ih =>
    simp only [containsKey, List.any_cons, List.map_cons] at ih ⊢
    rw [ih]

theorem containsKey_updateKey (reg : Registry) (t t2 : String)
    (g : List Nat → List Nat) :
    containsKey (updateKey reg t g) t2 = containsKey reg t2 := by
  rw [containsKey_eq_any_fst, updateKey_map_fst, ← containsKey_eq_any_fst]

theorem regLookup_append (l1 l2 : Registry) (t : String)
    (h : containsKey l1 t = false) :
    regLookup (l1 ++ l2) t = regLookup l2 t := by
  induction l1 with
  | nil => rfl
  | cons p rest ih =>
    obtain ⟨k, v⟩ := p
    simp only [containsKey, List.any_cons, Bool.or_eq_false_iff] at h
    obtain ⟨h1, h2⟩ := h
    simp only [List.cons_append, regLookup]
    rw [if_neg (by simpa using h1)]
    exact ih h2

theorem containsKey_append (l1 l2 : Registry) (t : String) :
    containsKey (l1 ++ l2) t = (containsKey l1 t || containsKey l2 t) := by
  simp [containsKey, List.any_append]

theorem setAdd_mem (s : List Nat) (f : Nat) : f ∈ setAdd s f := by
  by_cases h : f ∈ s <;> simp [setAdd, h]

theorem setAdd_idem (s : List Nat) (f : Nat) :
    setAdd (setAdd s f) f = setAdd s f := by
  by_cases hm : f ∈ s
  · simp [setAdd, hm]
  · have h1 : setAdd s f = s ++ [f] := by
      rw [setAdd, if_neg hm]
    rw [h1, setAdd, if_pos (by simp)]

theorem setAdd_nodup (s : List Nat) (f : Nat) (h : s.Nodup) :
    (setAdd s f).Nodup := by
  by_cases hm : f ∈ s
  · simpa [setAdd, hm] using h
  · rw [setAdd, if_neg hm]
    refine List.Nodup.append h (List.nodup_singleton f) ?_
    intro x hx hx2
    simp only [List.mem_singleton] at hx2
    subst hx2
    exact hm hx

theorem updateKey_updateKey (reg : Registry) (t : String)
    (g g2 : List Nat → List Nat) :
    updateKey (updateKey reg t g) t g2 =
      updateKey reg t (fun s => g2 (g s)) := by
  induction reg with
  | nil => rfl
  | cons p rest ih =>
    rw [updateKey_cons, updateKey_cons, updateKey_cons]
    congr 1
    by_cases hk : p.1 = t <;> simp [hk]

theorem onEvent_lookup (reg : Registry) (t : String) (f : Nat) :
    regLookup (NotificationModule.onEvent reg t f) t =
      some (setAdd (NotificationModule.dispatchTargets reg t) f) := by
  by_cases hc : containsKey reg t
  · obtain ⟨s, hs⟩ := regLookup_some_of_containsKey reg t hc
    simp [NotificationModule.onEvent, NotificationModule.dispatchTargets, hc,
      regLookup_updateKey, hs]
  · have hl := regLookup_none_of_not_containsKey reg t (by simpa using hc)
    simp only [NotificationModule.onEvent, Bool.not_eq_true] at *
    rw [if_neg (by simp [hc])]
    rw [regLookup_updateKey, regLookup_append reg [(t, [])] t (by simpa using hc)]
    simp [regLookup, NotificationModule.dispatchTargets, hl]

theorem onEvent_containsKey (reg : Registry) (t : String) (f : Nat) :
    containsKey (NotificationModule.onEvent reg t f) t = true := by
  by_cases hc : containsKey reg t
  · simp [NotificationModule.onEvent, hc, containsKey_updateKey]
  · simp only [NotificationModule.onEvent]
    rw [if_neg (by simp [hc])]
    rw [containsKey_updateKey, containsKey_append]
    simp [containsKey]

theorem regLookup_some_mem (reg : Registry) (t : String) (s2 : List Nat)
    (h : regLookup reg t = some s2) : (t, s2) ∈ reg := by
  induction reg with
  | nil => simp [regLookup] at h
  | cons p rest ih =>
    obtain ⟨k, v⟩ := p
    by_cases hk : k = t
    · subst hk
      simp only [regLookup, if_true, eq_self_iff_true, Option.some.injEq] at h
      subst h
      exact List.mem_cons_self _ _
    · simp only [regLookup, if_neg hk] at h
      exact List.mem_cons_of_mem _ (ih h)

theorem dispatchTargets_nodup (reg : Registry) (t : String) (hwf : RegWF reg) :
    (NotificationModule.dispatchTargets reg t).Nodup := by
  unfold NotificationModule.dispatchTargets
  cases h : regLookup reg t with
  | none => exact List.nodup_nil
  | some s2 => exact hwf.2 (t, s2) (regLookup_some_mem reg t s2 h)

theorem onEvent_idem (reg : Registry) (t : String) (f : Nat) :
    NotificationModule.onEvent (NotificationModule.onEvent reg t f) t f =
      NotificationModule.onEvent reg t f := by
  have hc2 := onEvent_containsKey reg t f
  simp only [NotificationModule.onEvent] at hc2 ⊢
  rw [if_pos hc2, updateKey_updateKey]
  congr 1
  funext s2
  exact setAdd_idem s2 f

theorem dispatchTargets_onEvent (reg : Registry) (t : String) (f : Nat) :
    NotificationModule.dispatchTargets (NotificationModule.onEvent reg t f) t =
      setAdd (NotificationModule.dispatchTargets reg t) f := by
  rw [NotificationModule.dispatchTargets, onEvent_lookup]

theorem regLookup_of_mem_nodup (reg : Registry) (k : String) (s2 : List Nat)
    (hn : (reg.map Prod.fst).Nodup) (hm : (k, s2) ∈ reg) :
    regLookup reg k = some s2 := by
  induction reg with
  | nil => simp at hm
  | cons p rest ih =>
    obtain ⟨k2, v2⟩ := p
    simp only [List.map_cons, List.nodup_cons] at hn
    rcases List.mem_cons.mp hm with h | h
    · injection h with h1 h2
      subst h1
      subst h2
      simp [regLookup]
    · have hk2 : k2 ≠ k := by
        intro he
        subst he
        exact hn.1 (List.mem_map_of_mem Prod.fst h)
      simp only [regLookup, if_neg hk2]
      exact ih hn.2 h

theorem updateKey_eq_self (reg : Registry) (t : String)
    (g : List Nat → List Nat) (h : ∀ p ∈ reg, p.1 = t → g p.2 = p.2) :
    updateKey reg t g = reg := by
  induction reg with
  | nil => rfl
  | cons p rest ih =>
    rw [updateKey_cons]
    congr 1
    · by_cases hp : p.1 = t
      · rw [if_pos hp, h p (List.mem_cons_self _ _) hp]
      · rw [if_neg hp]
    · exact ih (fun q hq => h q (List.mem_cons_of_mem _ hq))

/-- C5: listener registration is idempotent and dispatch deduplicates:
registering the same callback twice for the same event type leaves the
registry exactly as one registration does, and then one inbound message
of that type invokes the callback exactly once; removing an
unregistered callback is a no-op; and removing after registering yields
zero invocations.  The hypothesis is the Python set/dict invariant:
distinct dict keys, duplicate-free callback sets. -/
theorem claim_C5 (reg : Registry) (t : String) (f : Nat) (hwf : RegWF reg) :
    NotificationModule.onEvent (NotificationModule.onEvent reg t f) t f =
      NotificationModule.onEvent reg t f ∧
    (NotificationModule.dispatchTargets
        (NotificationModule.onEvent (NotificationModule.onEvent reg t f) t f)
        t).count f = 1 ∧
    (f ∉ NotificationModule.dispatchTargets reg t →
      NotificationModule.offEvent reg t f = reg) ∧
    (NotificationModule.dispatchTargets
        (NotificationModule.offEvent (NotificationModule.onEvent reg t f) t f)
        t).count f = 0 := by
  have hnd := dispatchTargets_nodup reg t hwf
  refine ⟨onEvent_idem reg t f, ?_, ?_, ?_⟩
  · rw [onEvent_idem, dispatchTargets_onEvent]
    exact List.count_eq_one_of_mem (setAdd_nodup _ f hnd) (setAdd_mem _ f)
  · intro hno
    by_cases hc : containsKey reg t
    · simp only [NotificationModule.offEvent, hc, if_true]
      apply updateKey_eq_self
      intro p hp hpt
      have hl : regLookup reg t = some p.2 := by
        have := regLookup_of_mem_nodup reg t p.2 hwf.1 (by
          rw [← hpt]
          exact hp)
        exact this
      have hd : NotificationModule.dispatchTargets reg t = p.2 := by
        rw [NotificationModule.dispatchTargets, hl]
      rw [hd] at hno
      exact List.erase_of_not_mem hno
    · simp [NotificationModule.offEvent, hc]
  · have hc2 := onEvent_containsKey reg t f
    simp only [NotificationModule.offEvent, hc2, if_true]
    have hl : regLookup (updateKey (NotificationModule.onEvent reg t f) t
        (fun s2 => s2.erase f)) t =
        some ((setAdd (NotificationModule.dispatchTargets reg t) f).erase f) := by
      rw [regLookup_updateKey, onEvent_lookup]
      rfl
    rw [NotificationModule.dispatchTargets, hl, List.count_erase_self,
      List.count_eq_one_of_mem (setAdd_nodup _ f hnd) (setAdd_mem _ f)]

theorem claim_C5_witness :
    (NotificationModule.onEvent
        (NotificationModule.onEvent [] "donation_received" 7)
        "donation_received" 7 =
      NotificationModule.onEvent [] "donation_received" 7) ∧
    (NotificationModule.dispatchTargets
        (NotificationModule.onEvent
          (NotificationModule.onEvent [] "donation_received" 7)
          "donation_received" 7) "donation_received").count 7 = 1 ∧
    NotificationModule.offEvent [] "donation_received" 7 = [] ∧
    (NotificationModule.dispatchTargets
        (NotificationModule.offEvent
          (NotificationModule.onEvent [] "donation_received" 7)
          "donation_received" 7) "donation_received").count 7 = 0 := by
  have h := claim_C5 [] "donation_received" 7 ⟨List.nodup_nil, by simp⟩
  exact ⟨h.1, h.2.1, h.2.2.1 (by simp [NotificationModule.dispatchTargets, regLookup]),
    h.2.2.2⟩
